import Mathlib

/-!
Shallow embedding of the session/token lifecycle of the backend under
verification: the user controller (`src/controllers/user.controller.js` —
register, login, logout, refresh-token rotation, password change), the
access-verification middleware (`src/middlewares/auth.middleware.js`) and the
error class (`src/utils/ApiError.js`), together with the parts of the
credential store (`user.model.js`, not present under `src/`) that these
handlers rely on; the latter are modelled from the spec and marked as such.

Handlers are embedded as pure functions threading the store explicitly and
returning `Except` for the thrown-error path; JWT strings are represented
structurally by their signing key and claims, which is sound because JWT
serialization is injective in (key, claims) and a signed token string is
never empty.
-/

deriving instance DecidableEq for Except

namespace Backend

/-- Lowercasing as in `toLowerCase()` and in case-insensitive key
comparison, computed characterwise so that concrete runs reduce in the
kernel. -/
def lowerStr (s : String) : String :=
  ⟨s.data.map Char.toLower⟩

/-- Trimming as in `trim()`: drop whitespace from both ends, computed on the
character list so that concrete runs reduce in the kernel. -/
def trimStr (s : String) : String :=
  ⟨((s.data.dropWhile Char.isWhitespace).reverse.dropWhile Char.isWhitespace).reverse⟩

/-- A JavaScript value as it flows through the handlers: `undefined`, `null`,
a plain string, or a signed JWT string (signing key, `_id` claim, `iat`,
`exp`).  Equality of `JsValue` models JS `===` on these values: distinct
constructors are distinct strings (a signed token string is nonempty and is
never a non-token string such as `""`). -/
inductive JsValue where
  | undefined : JsValue
  | null : JsValue
  | str : String → JsValue
  | signed : String → Nat → Nat → Nat → JsValue
deriving DecidableEq, Repr

/-- JavaScript truthiness for the values above: `undefined`, `null` and the
empty string are falsy; a signed token string is nonempty, hence truthy. -/
def truthy : JsValue → Bool
  | .undefined => false
  | .null => false
  | .str s => decide (s ≠ "")
  | .signed _ _ _ _ => true

/-- The JS `a || b` on these values. -/
def jsOr (a b : JsValue) : JsValue :=
  if truthy a then a else b

/-- The check `field?.trim() === ""` from `registerUser`: only a present
string that trims to the empty string passes; on `undefined`/`null` the
optional chaining yields `undefined`, which is not `=== ""`; a signed token
string is nonempty and whitespace-free. -/
def trimEmpty : JsValue → Bool
  | .str s => decide (trimStr s = "")
  | _ => false

/-- ApiError (src/utils/ApiError.js) as observable by a client: the
`statusCode` and `message` fields set by the constructor. -/
structure ApiError where
  statusCode : Nat
  message : String
deriving DecidableEq, Repr

/-- A stored user record with the fields the verified handlers touch.
`refreshToken` is a string field of the document (`undefined` before any login,
`""` after logout, a signed token otherwise); `password` stores the one-way
hash of the secret. -/
structure UserRec where
  _id : Nat
  username : String
  email : String
  fullName : String
  password : String
  refreshToken : JsValue
  avatar : String
  coverImage : String
deriving DecidableEq, Repr

/-- The credential store: the collection of user records. -/
abbrev Store := List UserRec

/-- The lookup `User.findById(id)`. -/
def findById (db : Store) (id : Nat) : Option UserRec :=
  db.find? (fun u => u._id = id)

/-- A `findByIdAndUpdate` / `save` writing through `f` on the record(s) with
the given id. -/
def updateById (db : Store) (id : Nat) (f : UserRec → UserRec) : Store :=
  db.map (fun u => if u._id = id then f u else u)

/-- Modelled from the spec: `user.model.js` is not under `src/`.  The secret
is stored as a one-way hash (spec §3, §4.1); the hash of `s` is represented
by the tagged string `"#" ++ s`, which is injective, and verifying any string
other than the exact plaintext — including the hash itself — fails (§8). -/
def hashSecret (s : String) : String :=
  "#" ++ s

/-- Modelled from the spec: `user.model.js` is not under `src/`.
`user.isPasswordCorrect(plaintext)` — the one-way comparison of §4.1; a
non-string plaintext (absent request field) never verifies. -/
def isPasswordCorrect (plain : JsValue) (stored : String) : Bool :=
  match plain with
  | .str s => decide (stored = hashSecret s)
  | _ => false

/-- Modelled from the spec: `user.model.js` is not under `src/`.  The clause
match of `User.findOne({ $or: [{ username }, { email }] })`: the handle is a
case-insensitive comparison key (spec §3), the contact address is compared
exactly, and a clause whose value is not a string matches nothing. -/
def identityMatches (username email : JsValue) (u : UserRec) : Bool :=
  (match username with
   | .str s => lowerStr u.username == lowerStr s
   | _ => false) ||
  (match email with
   | .str s => decide (u.email = s)
   | _ => false)

/-- The lookup `User.findOne({ $or: [{ username }, { email }] })`. -/
def findByIdentity (db : Store) (username email : JsValue) : Option UserRec :=
  db.find? (identityMatches username email)

/-- Environment-supplied token configuration: the two signing secrets and the
two expiries (`ACCESS_TOKEN_SECRET`, `REFRESH_TOKEN_SECRET`,
`ACCESS_TOKEN_EXPIRY`, `REFRESH_TOKEN_EXPIRY`). -/
structure Cfg where
  accessKey : String
  refreshKey : String
  accessTTL : Nat
  refreshTTL : Nat
deriving DecidableEq, Repr

/-- Signing `jwt.sign({ _id }, key, { expiresIn: ttl })` at time `now`. -/
def jwtSign (key : String) (id now ttl : Nat) : JsValue :=
  .signed key id now (now + ttl)

/-- Verification `jwt.verify(token, key)` at time `now`: succeeds with the
decoded claims iff the value is a token signed with `key` that has not
expired; on any other input the library throws, modelled by `none`. -/
def jwtVerify (v : JsValue) (key : String) (now : Nat) :
    Option (Nat × Nat × Nat) :=
  match v with
  | .signed k id iat exp => if k = key ∧ now < exp then some (id, iat, exp) else none
  | _ => none

/-- A literal JavaScript object, used for the return value of
`generateAccessAndRefreshTokens`: property access on a missing key yields
`undefined`. -/
abbrev JsObj := List (String × JsValue)

/-- Property access `o.k` on a literal object. -/
def getProp (o : JsObj) (k : String) : JsValue :=
  match o.find? (fun p => p.1 = k) with
  | some p => p.2
  | none => .undefined

/-- Handler `generateAccessAndRefreshTokens(userId)` (user.controller.js):
load the user, sign an access and a refresh token, persist the refresh token
on the record (`user.refreshToken = refreshToken; await user.save(...)`) and
return the object `{ accessToken, refreshToken }`.  The function's own
`catch` converts every failure — including the inner 404 — into the single
500 below. -/
def generateAccessAndRefreshTokens (cfg : Cfg) (now : Nat) (db : Store)
    (userId : Nat) : Except ApiError JsObj × Store :=
  match findById db userId with
  | none =>
      (.error ⟨500, "SOMETHING WENT WRONG WHILE GENERATING ACCESS AND REFRESH TOKENS"⟩, db)
  | some _ =>
      let accessToken := jwtSign cfg.accessKey userId now cfg.accessTTL
      let refreshToken := jwtSign cfg.refreshKey userId now cfg.refreshTTL
      (.ok [("accessToken", accessToken), ("refreshToken", refreshToken)],
       updateById db userId (fun u => { u with refreshToken := refreshToken }))

/-- Request body of `loginUser`. -/
structure LoginReq where
  username : JsValue
  email : JsValue
  password : JsValue
deriving DecidableEq, Repr

/-- Caller-observable success payload of the token-issuing handlers: HTTP
status, the two `Set-Cookie` credential values, and the token fields of the
JSON body. -/
structure TokenRes where
  status : Nat
  cookieAccessToken : JsValue
  cookieRefreshToken : JsValue
  bodyAccessToken : JsValue
  bodyRefreshToken : JsValue
  message : String
deriving DecidableEq, Repr

/-- Handler `loginUser` (user.controller.js): require an identity field,
look the principal up by handle or address, verify the secret, then mint and
return a pair.  Note the password's presence is not part of the validation
check. -/
def loginUser (cfg : Cfg) (now : Nat) (db : Store) (req : LoginReq) :
    Except ApiError TokenRes × Store :=
  if ¬ truthy req.username ∧ ¬ truthy req.email then
    (.error ⟨400, "USERNAME OR EMAIL IS REQUIRED"⟩, db)
  else
    match findByIdentity db req.username req.email with
    | none => (.error ⟨404, "USER NOT FOUND"⟩, db)
    | some user =>
      if ¬ isPasswordCorrect req.password user.password then
        (.error ⟨400, "INCORRECT PASSWORD"⟩, db)
      else
        match generateAccessAndRefreshTokens cfg now db user._id with
        | (.error e, db1) => (.error e, db1)
        | (.ok obj, db1) =>
          let accessToken := getProp obj "accessToken"
          let refreshToken := getProp obj "refreshToken"
          (.ok { status := 200,
                 cookieAccessToken := accessToken,
                 cookieRefreshToken := refreshToken,
                 bodyAccessToken := accessToken,
                 bodyRefreshToken := refreshToken,
                 message := "USER LOGGED IN SUCCESSFULLY" }, db1)

/-- Caller-observable payload of `logOutUser`. -/
structure LogoutRes where
  status : Nat
  clearedAccessCookie : Bool
  clearedRefreshCookie : Bool
  message : String
deriving DecidableEq, Repr

/-- Handler `logOutUser` (user.controller.js):
`findByIdAndUpdate(req.user._id, { $set: { refreshToken: "" } })`, then clear
both credential cookies.  The store value written is the empty string, not
`null`. -/
def logOutUser (db : Store) (userId : Nat) : LogoutRes × Store :=
  ({ status := 200, clearedAccessCookie := true, clearedRefreshCookie := true,
     message := "USER LOGGED OUT SUCCESSFULLY" },
   updateById db userId (fun u => { u with refreshToken := .str "" }))

/-- Failure aborting the `try` block of `refreshAccessToken`, before the
handler's `catch` replaces it.  Each variant records the distinct error the
source constructs at that point: `jwtError` for a `jwt.verify` throw (bad
signature, malformed, expired), `userNotFound` for
`ApiError(404, "User not found. Please log in again.")`, `tokenMismatch` for
`ApiError(403, "Refresh token mismatch. Please log in again.")`, and
`generateFailed` for an error rethrown from token generation. -/
inductive RefreshFailure where
  | jwtError : RefreshFailure
  | userNotFound : RefreshFailure
  | tokenMismatch : RefreshFailure
  | generateFailed : ApiError → RefreshFailure
deriving DecidableEq, Repr

/-- Request transports of `refreshAccessToken`: the refresh token may arrive
in the cookie or in the body (`req.cookies.refreshToken || req.body.refreshToken`). -/
structure RefreshReq where
  cookieRefreshToken : JsValue
  bodyRefreshToken : JsValue
deriving DecidableEq, Repr

/-- Body of the `try` block of `refreshAccessToken` (user.controller.js):
verify the incoming token with the refresh key, load the principal by the
token's `_id` claim, enforce equality with the stored `refreshToken`
(`user?.refreshToken !== incomingRefreshToken`), then mint a new pair.  The
source destructures `{ accessToken, newRefreshToken }` from the result of
`generateAccessAndRefreshTokens`, but that object has no `newRefreshToken`
property, so the refresh value set on the cookie and in the body is
`undefined`.  The explicit `if (!decodedToken)` check of the source is dead
code (`jwt.verify` throws rather than returning a falsy value) and therefore
has no corresponding branch here. -/
def refreshTryBlock (cfg : Cfg) (now : Nat) (db : Store) (incoming : JsValue) :
    Except RefreshFailure TokenRes × Store :=
  match jwtVerify incoming cfg.refreshKey now with
  | none => (.error .jwtError, db)
  | some (id, _, _) =>
    match findById db id with
    | none => (.error .userNotFound, db)
    | some user =>
      if user.refreshToken ≠ incoming then (.error .tokenMismatch, db)
      else
        match generateAccessAndRefreshTokens cfg now db user._id with
        | (.error e, db1) => (.error (.generateFailed e), db1)
        | (.ok obj, db1) =>
          let accessToken := getProp obj "accessToken"
          let newRefreshToken := getProp obj "newRefreshToken"
          (.ok { status := 200,
                 cookieAccessToken := accessToken,
                 cookieRefreshToken := newRefreshToken,
                 bodyAccessToken := accessToken,
                 bodyRefreshToken := newRefreshToken,
                 message := "Access token successfully refreshed." }, db1)

/-- Handler `refreshAccessToken` (user.controller.js): the missing-token
check sits outside the `try`; every failure raised inside the `try` —
including the distinct 404 and 403 the source constructs there — is caught
and replaced by the one generic 401 below. -/
def refreshAccessToken (cfg : Cfg) (now : Nat) (db : Store) (req : RefreshReq) :
    Except ApiError TokenRes × Store :=
  let incoming := jsOr req.cookieRefreshToken req.bodyRefreshToken
  if ¬ truthy incoming then
    (.error ⟨401, "Refresh token missing. Please log in again."⟩, db)
  else
    match refreshTryBlock cfg now db incoming with
    | (.ok r, db1) => (.ok r, db1)
    | (.error _, db1) =>
        (.error ⟨401, "Token refresh failed. Please try logging in again."⟩, db1)

/-- Request body of `changeCurrentpassword`. -/
structure ChangePwReq where
  currentPassword : JsValue
  newPassword : JsValue
deriving DecidableEq, Repr

/-- A plain status/message success payload. -/
structure SimpleRes where
  status : Nat
  message : String
deriving DecidableEq, Repr

/-- Handler `changeCurrentpassword` (user.controller.js): verify the current
secret, then `user.password = newPassword; await user.save()` — the model's
pre-save hook re-hashes the password (modelled from the spec, §4.7, as
`user.model.js` is not under `src/`); no other field of the record is
written.  A missing principal or a non-string new password makes the flow
throw, surfaced as a 500 by the handler wrapper. -/
def changeCurrentpassword (db : Store) (userId : Nat) (req : ChangePwReq) :
    Except ApiError SimpleRes × Store :=
  match findById db userId with
  | none => (.error ⟨500, "INTERNAL SERVER ERROR"⟩, db)
  | some user =>
    if ¬ isPasswordCorrect req.currentPassword user.password then
      (.error ⟨400, "INCORRECT PASSWORD"⟩, db)
    else
      match req.newPassword with
      | .str s =>
        (.ok ⟨200, "PASSWORD CHANGED SUCCESSFULLY"⟩,
         updateById db userId (fun u => { u with password := hashSecret s }))
      | _ => (.error ⟨500, "INTERNAL SERVER ERROR"⟩, db)

/-- Request of `registerUser`: body fields plus the multer-provided local
file paths. -/
structure RegisterReq where
  fullName : JsValue
  email : JsValue
  username : JsValue
  password : JsValue
  avatarPath : Option String
  coverImagePath : Option String
deriving DecidableEq, Repr

/-- The all-fields-required presence check of `registerUser`:
`[fullName, email, username, password].some((field) => field?.trim() === "")`. -/
def registerValidationFails (req : RegisterReq) : Bool :=
  [req.fullName, req.email, req.username, req.password].any trimEmpty

/-- Caller-observable payload of `registerUser`. -/
structure RegisterRes where
  status : Nat
  createdId : Nat
  message : String
deriving DecidableEq, Repr

/-- Continuation of `registerUser` after the presence check (user.controller.js):
uniqueness lookup on `{ $or: [{ username }, { email }] }`, avatar-path check,
cloud upload (an external collaborator, passed in as `upload`), then record
creation with the handle lowercased (`username.toLowerCase()`).  Creation
with a missing body field throws (`toLowerCase` on `undefined`, or the
model's required-field validation), surfaced as a 500 through the handler
wrapper. -/
def registerAfterValidation (db : Store) (req : RegisterReq)
    (upload : String → Option String) : Except ApiError RegisterRes × Store :=
  match findByIdentity db req.username req.email with
  | some _ => (.error ⟨409, "USER ALREADY EXISTS"⟩, db)
  | none =>
    match req.avatarPath with
    | none => (.error ⟨400, "AVATAR LOCAL PATH IS REQUIRED"⟩, db)
    | some ap =>
      match upload ap with
      | none => (.error ⟨400, "AVATAR IS REQUIRED"⟩, db)
      | some avatarUrl =>
        match req.fullName, req.email, req.username, req.password with
        | .str f, .str e, .str un, .str pw =>
          let newId := db.length + 1
          let coverUrl := (req.coverImagePath.bind upload).getD ""
          let created : UserRec :=
            { _id := newId, username := lowerStr un, email := e, fullName := f,
              password := hashSecret pw, refreshToken := .undefined,
              avatar := avatarUrl, coverImage := coverUrl }
          (.ok ⟨200, newId, "USER CREATED"⟩, db ++ [created])
        | _, _, _, _ => (.error ⟨500, "INTERNAL SERVER ERROR"⟩, db)

/-- Handler `registerUser` (user.controller.js): the presence check, then
the lookup-and-create continuation. -/
def registerUser (db : Store) (req : RegisterReq)
    (upload : String → Option String) : Except ApiError RegisterRes × Store :=
  if registerValidationFails req then
    (.error ⟨400, "ALL FIELDS ARE REQUIRED"⟩, db)
  else registerAfterValidation db req upload

/-- An error value as thrown in JS, with the two status-like properties read
by the middleware's catch: `ApiError` sets `statusCode` (never `status`);
errors thrown by the token library set neither. -/
structure JsError where
  status : Option Nat
  statusCode : Option Nat
  message : String
deriving DecidableEq, Repr

/-- Construction `new ApiError(code, msg)` viewed as a thrown JS error value:
the class stores the code in `statusCode` and leaves `status` unset. -/
def mkApiError (code : Nat) (msg : String) : JsError :=
  { status := none, statusCode := some code, message := msg }

/-- Request of the access-verification gate: the `accessToken` cookie and
the already-Bearer-stripped Authorization header value
(`req.header("Authorization")?.replace("Bearer ", "")`; `undefined` when the
header is absent). -/
structure AuthReq where
  cookieAccessToken : JsValue
  headerAccessToken : JsValue
deriving DecidableEq, Repr

/-- Body of the `try` block of `VerifyJWT` (auth.middleware.js): extract the
access credential from the cookie, else the header; verify it with the
access key; load the principal by the decoded `_id` claim (the
`-password -refreshToken` projection does not affect the gate's decision and
is dropped here). -/
def verifyJWTTryBlock (cfg : Cfg) (now : Nat) (db : Store) (req : AuthReq) :
    Except JsError UserRec :=
  let token := jsOr req.cookieAccessToken req.headerAccessToken
  if ¬ truthy token then .error (mkApiError 401 "UNAUTHORIZED")
  else
    match jwtVerify token cfg.accessKey now with
    | none => .error { status := none, statusCode := none, message := "jwt malformed" }
    | some (id, _, _) =>
      match findById db id with
      | none => .error (mkApiError 404 "INVALID ACCESS TOKEN")
      | some user => .ok user

/-- Middleware `VerifyJWT` (auth.middleware.js): the catch re-wraps any error
as `new ApiError(error?.status || 500, error?.message || "INTERNAL SERVER ERROR")`.
Since `ApiError` stores its code in `statusCode`, not `status`, the
`error?.status` read is `undefined` for every error reaching this catch and
the `|| 500` default always applies. -/
def VerifyJWT (cfg : Cfg) (now : Nat) (db : Store) (req : AuthReq) :
    Except JsError UserRec :=
  match verifyJWTTryBlock cfg now db req with
  | .ok u => .ok u
  | .error e =>
      .error (mkApiError (e.status.getD 500)
        (if e.message = "" then "INTERNAL SERVER ERROR" else e.message))

/-! ## Helper lemmas -/

/-- Mapping a function that preserves a predicate commutes with `find?`. -/
theorem find?_map_pres {α : Type} (g : α → α) (q : α → Bool)
    (h : ∀ a, q (g a) = q a) (l : List α) :
    (l.map g).find? q = (l.find? q).map g := by
  induction l with
  | nil => rfl
  | cons a l ih =>
    by_cases hq : q a
    · simp [List.find?, h, hq]
    · simp only [List.map_cons, List.find?]
      rw [h a]
      simp only [hq]
      exact ih

/-- Updating a record through an `_id`-preserving function commutes with
`findById`. -/
theorem findById_updateById (db : Store) (i j : Nat) (f : UserRec → UserRec)
    (hf : ∀ u, (f u)._id = u._id) :
    findById (updateById db i f) j =
      (findById db j).map (fun u => if u._id = i then f u else u) := by
  unfold findById updateById
  refine find?_map_pres _ _ (fun a => ?_) db
  by_cases ha : a._id = i <;> simp [ha, hf]

/-- Updating a record through a function preserving the identity fields
commutes with `findByIdentity`. -/
theorem findByIdentity_updateById (db : Store) (i : Nat) (f : UserRec → UserRec)
    (un em : JsValue)
    (hf : ∀ u, (f u).username = u.username ∧ (f u).email = u.email) :
    findByIdentity (updateById db i f) un em =
      (findByIdentity db un em).map (fun u => if u._id = i then f u else u) := by
  unfold findByIdentity updateById
  refine find?_map_pres _ _ (fun a => ?_) db
  by_cases ha : a._id = i <;>
    simp [ha, identityMatches, (hf a).1, (hf a).2]

/-- A member satisfying the predicate makes `find?` succeed. -/
theorem find?_isSome_of_mem {α : Type} (l : List α) (q : α → Bool) (a : α)
    (ha : a ∈ l) (hq : q a = true) : ∃ b, l.find? q = some b := by
  cases h : l.find? q with
  | some b => exact ⟨b, rfl⟩
  | none => exact absurd hq (by simpa using List.find?_eq_none.mp h a ha)

/-! ## Concrete scenario used by the closed theorems -/

/-- Token configuration used in the concrete scenarios: access key "AK" with
TTL 100, refresh key "RK" with TTL 1000. -/
def demoCfg : Cfg := ⟨"AK", "RK", 100, 1000⟩

/-- A refresh token issued earlier to user 1 (signed with "RK" at time 10,
expiring at 2000). -/
def demoTok : JsValue := .signed "RK" 1 10 2000

/-- User 1 with `demoTok` persisted as the current refresh token. -/
def demoUser : UserRec :=
  ⟨1, "bob", "bob@example.com", "Bob", hashSecret "pw", demoTok, "a.png", ""⟩

/-- A one-user store. -/
def demoDb : Store := [demoUser]

/-! ## Claim theorems -/

/-- C1: for a successful refresh request (valid signature, principal found,
token equals the stored one) the handler does mint and persist a new rotated
refresh token, but the credentials returned to the caller carry `undefined`
as the refresh token — the source destructures a `newRefreshToken` property
that does not exist on the minted object — so the returned refresh value is
neither the new token nor any token at all.  Evaluated at a concrete
successful refresh. -/
theorem refresh_success_returns_undefined_refresh_token :
    (refreshAccessToken demoCfg 50 demoDb ⟨demoTok, .undefined⟩).1 =
      .ok { status := 200,
            cookieAccessToken := .signed "AK" 1 50 150,
            cookieRefreshToken := .undefined,
            bodyAccessToken := .signed "AK" 1 50 150,
            bodyRefreshToken := .undefined,
            message := "Access token successfully refreshed." } ∧
    (findById (refreshAccessToken demoCfg 50 demoDb ⟨demoTok, .undefined⟩).2 1).map
      (fun u => u.refreshToken) = some (.signed "RK" 1 50 1050) ∧
    JsValue.signed "RK" 1 50 1050 ≠ demoTok :=
  ⟨rfl, rfl, by decide⟩

/-- C2: the refresh flow does not surface distinct rejections: only the
missing-token failure keeps its own 401; a valid-signature token for an
absent principal (404 inside the `try`), a stored-token mismatch (403 inside
the `try`) and a bad-signature token (library throw) are all replaced by the
identical generic 401 by the handler's `catch`.  The `refreshTryBlock`
equations exhibit the distinct inner failures; the `refreshAccessToken`
equations exhibit the collapsed caller-visible result. -/
theorem refresh_failure_modes_collapse_to_generic_401 :
    (refreshAccessToken demoCfg 50 demoDb ⟨.undefined, .undefined⟩).1 =
      .error ⟨401, "Refresh token missing. Please log in again."⟩ ∧
    (refreshTryBlock demoCfg 50 [] (.signed "RK" 7 0 1000)).1 =
      .error .userNotFound ∧
    (refreshAccessToken demoCfg 50 [] ⟨.signed "RK" 7 0 1000, .undefined⟩).1 =
      .error ⟨401, "Token refresh failed. Please try logging in again."⟩ ∧
    (refreshTryBlock demoCfg 50 demoDb (.signed "RK" 1 20 3000)).1 =
      .error .tokenMismatch ∧
    (refreshAccessToken demoCfg 50 demoDb ⟨.signed "RK" 1 20 3000, .undefined⟩).1 =
      .error ⟨401, "Token refresh failed. Please try logging in again."⟩ ∧
    (refreshTryBlock demoCfg 50 demoDb (.signed "WRONG" 1 10 2000)).1 =
      .error .jwtError ∧
    (refreshAccessToken demoCfg 50 demoDb ⟨.signed "WRONG" 1 10 2000, .undefined⟩).1 =
      .error ⟨401, "Token refresh failed. Please try logging in again."⟩ :=
  ⟨rfl, rfl, rfl, rfl, rfl, rfl, rfl⟩

/-- C3 counterexample: the claim as stated fails on the code at a concrete
input.  After a successful logout of user 1, the stored refresh value is the
empty string — not `null` — and presenting the previously issued (unexpired)
refresh token fails with the generic 401 produced by the catch-all, not with
the 403 `RefreshTokenMismatch` rejection. -/
theorem logout_stores_empty_string_not_null_cex :
    (findById (logOutUser demoDb 1).2 1).map (fun u => u.refreshToken) =
      some (.str "") ∧
    JsValue.str "" ≠ JsValue.null ∧
    (refreshAccessToken demoCfg 50 (logOutUser demoDb 1).2 ⟨demoTok, .undefined⟩).1 =
      .error ⟨401, "Token refresh failed. Please try logging in again."⟩ ∧
    (⟨401, "Token refresh failed. Please try logging in again."⟩ : ApiError) ≠
      ⟨403, "Refresh token mismatch. Please log in again."⟩ :=
  ⟨rfl, by decide, rfl, by decide⟩

/-- C4: every expected failure of the access-verification gate surfaces with
status 500, not in the 401/404 class: the catch re-wraps errors using
`error?.status`, a property `ApiError` (which stores `statusCode`) and the
token library's errors never set, so the `|| 500` default always applies.
Evaluated at the three failure modes: no credential presented, malformed /
wrong-signature / expired token, and principal not found. -/
theorem verifyJWT_expected_failures_surface_as_500 :
    VerifyJWT demoCfg 50 demoDb ⟨.undefined, .undefined⟩ =
      .error ⟨none, some 500, "UNAUTHORIZED"⟩ ∧
    VerifyJWT demoCfg 50 demoDb ⟨.str "garbage", .undefined⟩ =
      .error ⟨none, some 500, "jwt malformed"⟩ ∧
    VerifyJWT demoCfg 5000 demoDb ⟨.signed "AK" 1 10 200, .undefined⟩ =
      .error ⟨none, some 500, "jwt malformed"⟩ ∧
    VerifyJWT demoCfg 50 [] ⟨.signed "AK" 9 0 1000, .undefined⟩ =
      .error ⟨none, some 500, "INVALID ACCESS TOKEN"⟩ :=
  ⟨rfl, rfl, rfl, rfl⟩

/-- C3 (amended): after a successful logout for principal `p`, the stored
refresh value for `p` is the empty string, and any previously issued,
still-unexpired refresh token for `p` presented to the refresh operation
fails the stored-token equality check — the inner failure is
`RefreshTokenMismatch` (the 403 constructed in the `try` block), which the
handler's catch-all surfaces to the caller as the generic 401. -/
theorem logout_clears_to_empty_and_invalidates_refresh
    (cfg : Cfg) (db : Store) (p iat texp now : Nat) (u : UserRec)
    (hfound : findById db p = some u) (hexp : now < texp) :
    (findById (logOutUser db p).2 p).map (fun w => w.refreshToken) =
      some (.str "") ∧
    (refreshTryBlock cfg now (logOutUser db p).2
        (.signed cfg.refreshKey p iat texp)).1 = .error .tokenMismatch ∧
    (refreshAccessToken cfg now (logOutUser db p).2
        ⟨.signed cfg.refreshKey p iat texp, .undefined⟩).1 =
      .error ⟨401, "Token refresh failed. Please try logging in again."⟩ := by
  have hid : u._id = p := by simpa using List.find?_some hfound
  have h2 : findById (logOutUser db p).2 p =
      some { u with refreshToken := .str "" } := by
    show findById
      (updateById db p (fun w => { w with refreshToken := .str "" })) p = _
    rw [findById_updateById db p p
      (fun w => { w with refreshToken := .str "" }) (fun w => rfl), hfound]
    simp [hid]
  have htry : refreshTryBlock cfg now (logOutUser db p).2
      (.signed cfg.refreshKey p iat texp) =
      (.error .tokenMismatch, (logOutUser db p).2) := by
    simp only [refreshTryBlock,
      show jwtVerify (.signed cfg.refreshKey p iat texp) cfg.refreshKey now
        = some (p, iat, texp) from by simp [jwtVerify, hexp], h2]
    simp
  refine ⟨by simp [h2], by rw [htry], ?_⟩
  unfold refreshAccessToken
  simp [jsOr, truthy, htry]

/-- C3 witness: the amended statement holds at the concrete scenario. -/
theorem logout_clears_to_empty_and_invalidates_refresh_witness :
    (findById (logOutUser demoDb 1).2 1).map (fun w => w.refreshToken) =
      some (.str "") ∧
    (refreshTryBlock demoCfg 50 (logOutUser demoDb 1).2
        (.signed "RK" 1 10 2000)).1 = .error .tokenMismatch ∧
    (refreshAccessToken demoCfg 50 (logOutUser demoDb 1).2
        ⟨.signed "RK" 1 10 2000, .undefined⟩).1 =
      .error ⟨401, "Token refresh failed. Please try logging in again."⟩ :=
  logout_clears_to_empty_and_invalidates_refresh demoCfg demoDb 1 10 2000 50
    demoUser rfl (by decide)

/-- C7: a login request carrying an identity field that resolves to an
existing principal but a secret that fails verification is rejected with the
400 "INCORRECT PASSWORD" error, and the store is returned unchanged — no
token is minted and no record is written. -/
theorem login_wrong_password_rejects_and_preserves_store
    (cfg : Cfg) (now : Nat) (db : Store) (req : LoginReq) (u : UserRec)
    (hid : truthy req.username = true ∨ truthy req.email = true)
    (hfind : findByIdentity db req.username req.email = some u)
    (hpw : isPasswordCorrect req.password u.password = false) :
    loginUser cfg now db req = (.error ⟨400, "INCORRECT PASSWORD"⟩, db) := by
  unfold loginUser
  rw [if_neg (by rcases hid with h | h <;> simp [h])]
  rw [hfind]
  simp [hpw]

/-- C7 witness: login for the stored handle with a wrong secret, at the
concrete scenario. -/
theorem login_wrong_password_rejects_and_preserves_store_witness :
    loginUser demoCfg 0 demoDb ⟨.str "bob", .undefined, .str "wrong"⟩ =
      (.error ⟨400, "INCORRECT PASSWORD"⟩, demoDb) :=
  login_wrong_password_rejects_and_preserves_store demoCfg 0 demoDb
    ⟨.str "bob", .undefined, .str "wrong"⟩ demoUser (Or.inl rfl) rfl rfl

/-- C6: a successful secret change (principal loaded, current secret
verifies, new secret a string) rewrites exactly the password field of the
principal's record with the re-hashed new secret: the resulting store is the
pointwise password update, and the principal's record afterwards is the old
record with only `password` replaced — in particular `refreshToken` is
unchanged. -/
theorem change_password_only_rewrites_password_hash
    (db : Store) (uid : Nat) (req : ChangePwReq) (u : UserRec) (s : String)
    (hfind : findById db uid = some u)
    (hpw : isPasswordCorrect req.currentPassword u.password = true)
    (hnew : req.newPassword = .str s) :
    changeCurrentpassword db uid req =
      (.ok ⟨200, "PASSWORD CHANGED SUCCESSFULLY"⟩,
       updateById db uid (fun w => { w with password := hashSecret s })) ∧
    findById (changeCurrentpassword db uid req).2 uid =
      some { u with password := hashSecret s } := by
  have hid : u._id = uid := by simpa using List.find?_some hfind
  have h1 : changeCurrentpassword db uid req =
      (.ok ⟨200, "PASSWORD CHANGED SUCCESSFULLY"⟩,
       updateById db uid (fun w => { w with password := hashSecret s })) := by
    unfold changeCurrentpassword
    rw [hfind, hnew]
    simp [hpw]
  refine ⟨h1, ?_⟩
  rw [h1]
  show findById
    (updateById db uid (fun w => { w with password := hashSecret s })) uid = _
  rw [findById_updateById db uid uid
    (fun w => { w with password := hashSecret s }) (fun w => rfl), hfind]
  simp [hid]

/-- C6 witness: the secret change at the concrete scenario leaves the stored
refresh token untouched. -/
theorem change_password_only_rewrites_password_hash_witness :
    changeCurrentpassword demoDb 1 ⟨.str "pw", .str "npw"⟩ =
      (.ok ⟨200, "PASSWORD CHANGED SUCCESSFULLY"⟩,
       updateById demoDb 1 (fun w => { w with password := hashSecret "npw" })) ∧
    findById (changeCurrentpassword demoDb 1 ⟨.str "pw", .str "npw"⟩).2 1 =
      some { demoUser with password := hashSecret "npw" } :=
  change_password_only_rewrites_password_hash demoDb 1 ⟨.str "pw", .str "npw"⟩
    demoUser "npw" rfl rfl rfl

/-- C8 counterexample: the claim as stated fails on the code.  A login
request with an identity field present but the secret entirely absent is not
rejected with the validation error: the store lookup runs and the request
fails only afterwards (here with the 404 of an unknown handle), so the
secret's presence is not part of the validation check. -/
theorem login_missing_secret_reaches_lookup_cex :
    loginUser demoCfg 0 demoDb ⟨.str "ghost", .undefined, .undefined⟩ =
      (.error ⟨404, "USER NOT FOUND"⟩, demoDb) ∧
    (⟨404, "USER NOT FOUND"⟩ : ApiError) ≠
      ⟨400, "USERNAME OR EMAIL IS REQUIRED"⟩ :=
  ⟨rfl, by decide⟩

/-- Token generation can only fail with its own catch-all 500. -/
theorem generate_error_is_500 (cfg : Cfg) (now : Nat) (db : Store) (uid : Nat)
    (e : ApiError) (db1 : Store)
    (hg : generateAccessAndRefreshTokens cfg now db uid = (.error e, db1)) :
    e = ⟨500, "SOMETHING WENT WRONG WHILE GENERATING ACCESS AND REFRESH TOKENS"⟩ := by
  unfold generateAccessAndRefreshTokens at hg
  cases h : findById db uid <;> rw [h] at hg <;> simp_all

/-- C8 (amended): the login validation error is raised iff both identity
fields are missing (falsy); the secret's presence is not checked — a request
missing the secret but carrying an identity field passes validation and
proceeds to the store lookup. -/
theorem login_validation_error_iff_no_identity
    (cfg : Cfg) (now : Nat) (db : Store) (req : LoginReq) :
    (loginUser cfg now db req).1 =
        .error ⟨400, "USERNAME OR EMAIL IS REQUIRED"⟩ ↔
      (truthy req.username = false ∧ truthy req.email = false) := by
  unfold loginUser
  by_cases hc : ¬ truthy req.username ∧ ¬ truthy req.email
  · rw [if_pos hc]
    simpa using hc
  · rw [if_neg hc]
    have hr : ¬ (truthy req.username = false ∧ truthy req.email = false) := by
      rintro ⟨h1, h2⟩
      exact hc ⟨by simp [h1], by simp [h2]⟩
    refine iff_of_false ?_ hr
    cases hf : findByIdentity db req.username req.email with
    | none => simp [hf]
    | some u =>
      simp only [hf]
      by_cases hp : isPasswordCorrect req.password u.password = true
      · rcases hg : generateAccessAndRefreshTokens cfg now db u._id with ⟨e | obj, db1⟩
        · have h500 := generate_error_is_500 cfg now db u._id e db1 hg
          subst h500
          simp [hp, hg]
        · simp [hp, hg]
      · simp only [hp]
        simp

/-- C9: registration with a handle that differs from an existing principal's
handle only in letter case (same case-insensitive key) is rejected with the
409 already-exists error, and the store is returned unchanged — no record is
created.  The lookup semantics of the handle as a case-insensitive key come
from the spec's data model, as `user.model.js` is not under `src/`. -/
theorem register_duplicate_handle_case_insensitive_409
    (db : Store) (req : RegisterReq) (u : UserRec) (s : String)
    (upload : String → Option String)
    (hmem : u ∈ db)
    (hs : req.username = .str s)
    (hcase : lowerStr u.username = lowerStr s)
    (hval : registerValidationFails req = false) :
    registerUser db req upload = (.error ⟨409, "USER ALREADY EXISTS"⟩, db) := by
  unfold registerUser
  rw [hval]
  have hmatch : identityMatches req.username req.email u = true := by
    rw [hs]
    simp [identityMatches, hcase]
  obtain ⟨w, hw⟩ :=
    find?_isSome_of_mem db (identityMatches req.username req.email) u hmem hmatch
  have hfind : findByIdentity db req.username req.email = some w := hw
  unfold registerAfterValidation
  rw [hfind]
  simp

/-- C9 witness: registering the handle "BOB" while "bob" exists is rejected
with the 409 and leaves the store unchanged. -/
theorem register_duplicate_handle_case_insensitive_409_witness :
    registerUser demoDb
      ⟨.str "Bobby Tables", .str "new@example.com", .str "BOB", .str "secret",
        some "avatar.png", none⟩ (fun p => some p) =
      (.error ⟨409, "USER ALREADY EXISTS"⟩, demoDb) :=
  register_duplicate_handle_case_insensitive_409 demoDb
    ⟨.str "Bobby Tables", .str "new@example.com", .str "BOB", .str "secret",
      some "avatar.png", none⟩ demoUser "BOB" (fun p => some p)
    (by decide) rfl (by decide) rfl

/-- C10: the registration all-fields-required error is raised iff at least
one of the four body fields is present and trims to the empty string; a
request in which a field is entirely absent (`undefined`) passes the
presence check (the right-hand side is false for it), so the handler
proceeds past validation to the uniqueness lookup and creation path. -/
theorem register_validation_error_iff_present_field_trims_empty
    (db : Store) (req : RegisterReq) (upload : String → Option String) :
    (registerUser db req upload).1 = .error ⟨400, "ALL FIELDS ARE REQUIRED"⟩ ↔
      (trimEmpty req.fullName = true ∨ trimEmpty req.email = true ∨
       trimEmpty req.username = true ∨ trimEmpty req.password = true) := by
  unfold registerUser
  by_cases hv : registerValidationFails req = true
  · rw [if_pos hv]
    simp only [true_iff]
    simpa [registerValidationFails] using hv
  · rw [if_neg hv]
    have hr : ¬ (trimEmpty req.fullName = true ∨ trimEmpty req.email = true ∨
        trimEmpty req.username = true ∨ trimEmpty req.password = true) := by
      intro h
      exact hv (by simpa [registerValidationFails] using h)
    refine iff_of_false ?_ hr
    unfold registerAfterValidation
    cases hf : findByIdentity db req.username req.email with
    | some w => simp [hf]
    | none =>
      simp only [hf]
      cases hap : req.avatarPath with
      | none => simp
      | some ap =>
        simp only []
        cases hup : upload ap with
        | none => simp
        | some url =>
          simp only []
          rcases req with ⟨fn, em, un, pw, _, _⟩
          cases fn <;> cases em <;> cases un <;> cases pw <;> simp

/-- A successful token generation: with the principal found, it signs the
pair at the current time and persists the refresh token. -/
theorem generate_ok (cfg : Cfg) (now : Nat) (db : Store) (uid : Nat)
    (w : UserRec) (hfound : findById db uid = some w) :
    generateAccessAndRefreshTokens cfg now db uid =
      (.ok [("accessToken", jwtSign cfg.accessKey uid now cfg.accessTTL),
            ("refreshToken", jwtSign cfg.refreshKey uid now cfg.refreshTTL)],
       updateById db uid
         (fun v => { v with
           refreshToken := jwtSign cfg.refreshKey uid now cfg.refreshTTL })) := by
  unfold generateAccessAndRefreshTokens
  rw [hfound]

/-- The success payload a login built at time `now` for principal id `uid`
carries: both freshly signed tokens in the cookies and the body. -/
def loginRes (cfg : Cfg) (uid now : Nat) : TokenRes :=
  { status := 200,
    cookieAccessToken := jwtSign cfg.accessKey uid now cfg.accessTTL,
    cookieRefreshToken := jwtSign cfg.refreshKey uid now cfg.refreshTTL,
    bodyAccessToken := jwtSign cfg.accessKey uid now cfg.accessTTL,
    bodyRefreshToken := jwtSign cfg.refreshKey uid now cfg.refreshTTL,
    message := "USER LOGGED IN SUCCESSFULLY" }

/-- A successful login: validation passes, the principal is found and the
secret verifies, so a fresh pair is returned and the refresh token is
persisted. -/
theorem login_ok (cfg : Cfg) (now : Nat) (db : Store) (req : LoginReq)
    (u w : UserRec)
    (hcond : ¬ (¬ truthy req.username ∧ ¬ truthy req.email))
    (hfind : findByIdentity db req.username req.email = some u)
    (hpw : isPasswordCorrect req.password u.password = true)
    (hfid : findById db u._id = some w) :
    loginUser cfg now db req =
      (.ok (loginRes cfg u._id now),
       updateById db u._id
         (fun v => { v with
           refreshToken := jwtSign cfg.refreshKey u._id now cfg.refreshTTL })) := by
  unfold loginUser
  rw [if_neg hcond, hfind]
  simp only [hpw, not_true, Bool.true_eq_false, if_false]
  rw [generate_ok cfg now db u._id w hfid]
  simp [getProp, loginRes]

/-- C5: two successful logins for the same principal in sequence leave only
the second login's refresh token in the store: each mint overwrites the
stored value, the second response carries the token signed at the second
time, the store afterwards holds exactly that token, and the two issued
refresh tokens are distinct (their issue times differ). -/
theorem two_logins_only_second_refresh_token_stored
    (cfg : Cfg) (db : Store) (req : LoginReq) (u : UserRec) (t1 t2 : Nat)
    (hid : truthy req.username = true ∨ truthy req.email = true)
    (hfind : findByIdentity db req.username req.email = some u)
    (hpw : isPasswordCorrect req.password u.password = true)
    (ht : t1 ≠ t2) :
    ∃ res1 res2 db2,
      (loginUser cfg t1 db req).1 = .ok res1 ∧
      loginUser cfg t2 (loginUser cfg t1 db req).2 req = (.ok res2, db2) ∧
      res1.bodyRefreshToken = jwtSign cfg.refreshKey u._id t1 cfg.refreshTTL ∧
      res2.bodyRefreshToken = jwtSign cfg.refreshKey u._id t2 cfg.refreshTTL ∧
      (findById db2 u._id).map (fun w => w.refreshToken) =
        some (jwtSign cfg.refreshKey u._id t2 cfg.refreshTTL) ∧
      res1.bodyRefreshToken ≠ res2.bodyRefreshToken := by
  have hcond : ¬ (¬ truthy req.username ∧ ¬ truthy req.email) := by
    rcases hid with h | h <;> simp [h]
  have hmem : u ∈ db := List.mem_of_find?_eq_some hfind
  obtain ⟨w0, hw0⟩ :=
    find?_isSome_of_mem db (fun w => w._id = u._id) u hmem (by simp)
  have hfid : findById db u._id = some w0 := hw0
  have hw0id : w0._id = u._id := by simpa using List.find?_some hw0
  have hlogin1 := login_ok cfg t1 db req u w0 hcond hfind hpw hfid
  have hfind2 : findByIdentity
      (updateById db u._id (fun v => { v with
        refreshToken := jwtSign cfg.refreshKey u._id t1 cfg.refreshTTL }))
      req.username req.email =
      some { u with
        refreshToken := jwtSign cfg.refreshKey u._id t1 cfg.refreshTTL } := by
    rw [findByIdentity_updateById db u._id
      (fun v => { v with
        refreshToken := jwtSign cfg.refreshKey u._id t1 cfg.refreshTTL })
      req.username req.email (fun v => ⟨rfl, rfl⟩), hfind]
    simp
  have hfid2 : findById
      (updateById db u._id (fun v => { v with
        refreshToken := jwtSign cfg.refreshKey u._id t1 cfg.refreshTTL }))
      u._id =
      some { w0 with
        refreshToken := jwtSign cfg.refreshKey u._id t1 cfg.refreshTTL } := by
    rw [findById_updateById db u._id u._id
      (fun v => { v with
        refreshToken := jwtSign cfg.refreshKey u._id t1 cfg.refreshTTL })
      (fun v => rfl), hfid]
    simp [hw0id]
  have hlogin2 := login_ok cfg t2
    (updateById db u._id (fun v => { v with
      refreshToken := jwtSign cfg.refreshKey u._id t1 cfg.refreshTTL }))
    req
    { u with refreshToken := jwtSign cfg.refreshKey u._id t1 cfg.refreshTTL }
    { w0 with refreshToken := jwtSign cfg.refreshKey u._id t1 cfg.refreshTTL }
    hcond hfind2 hpw hfid2
  have hfid3 : (findById
      (updateById
        (updateById db u._id (fun v => { v with
          refreshToken := jwtSign cfg.refreshKey u._id t1 cfg.refreshTTL }))
        u._id (fun v => { v with
          refreshToken := jwtSign cfg.refreshKey u._id t2 cfg.refreshTTL }))
      u._id).map (fun w => w.refreshToken) =
      some (jwtSign cfg.refreshKey u._id t2 cfg.refreshTTL) := by
    rw [findById_updateById _ u._id u._id
      (fun v => { v with
        refreshToken := jwtSign cfg.refreshKey u._id t2 cfg.refreshTTL })
      (fun v => rfl), hfid2]
    simp [hw0id]
  refine ⟨loginRes cfg u._id t1, loginRes cfg u._id t2,
    updateById
      (updateById db u._id (fun v => { v with
        refreshToken := jwtSign cfg.refreshKey u._id t1 cfg.refreshTTL }))
      u._id (fun v => { v with
        refreshToken := jwtSign cfg.refreshKey u._id t2 cfg.refreshTTL }),
    ?_, ?_, rfl, rfl, ?_, ?_⟩
  · rw [hlogin1]
  · rw [hlogin1]
    exact hlogin2
  · exact hfid3
  · simp [loginRes, jwtSign, ht]

/-- C5 witness: two logins at times 10 and 20 in the concrete scenario. -/
theorem two_logins_only_second_refresh_token_stored_witness :
    ∃ res1 res2 db2,
      (loginUser demoCfg 10 demoDb ⟨.str "bob", .undefined, .str "pw"⟩).1 =
        .ok res1 ∧
      loginUser demoCfg 20 (loginUser demoCfg 10 demoDb
          ⟨.str "bob", .undefined, .str "pw"⟩).2 ⟨.str "bob", .undefined, .str "pw"⟩ =
        (.ok res2, db2) ∧
      res1.bodyRefreshToken = jwtSign "RK" 1 10 1000 ∧
      res2.bodyRefreshToken = jwtSign "RK" 1 20 1000 ∧
      (findById db2 1).map (fun w => w.refreshToken) =
        some (jwtSign "RK" 1 20 1000) ∧
      res1.bodyRefreshToken ≠ res2.bodyRefreshToken :=
  two_logins_only_second_refresh_token_stored demoCfg demoDb
    ⟨.str "bob", .undefined, .str "pw"⟩ demoUser 10 20 (Or.inl rfl) rfl rfl
    (by decide)

end Backend
